import Mathlib

/-!
# Verification of the ZBM sample-tracker reporting scripts

Shallow embedding of the status-reconciliation and aggregation logic of the
`3D-automation` repository (files `Claude.py`, `hierarchical_zbm_summary.py`,
`create_corrected_zbm_reports.py`, `send_zbm_emails.py`,
`create_zbm_outlook_emails.py`).

Strings are modelled as `List Char` (`Str`).  Python's `str.strip` and
`str.casefold` are modelled on the ASCII range: `strip` removes the six ASCII
whitespace characters and `casefold` lowercases `A`–`Z` (all status labels and
territory codes appearing in the scripts are ASCII).  Python dictionaries are
modelled as functions built by folding assignments left to right (`dictOf`),
which gives exactly the assignment/`update`/`get` semantics used by the
scripts.  Pandas constructs are modelled as follows: `Series.unique` and
`DataFrame.drop_duplicates` keep the first occurrence (`distinctFirst`),
`groupby(...).agg('first')` keeps one entry per key with the values of the
first row of each group (`uniqueRequests`), `nunique` is the length of the
deduplicated value list, `Series.mode()` is the sorted list of most frequent
values, and `sort_values` is a stable ascending sort (`List.insertionSort`
with the lexicographic order on `List Char`).
-/

namespace ZbmAuto

/-- Strings of the scripts, modelled as lists of characters. -/
abbrev Str := List Char

/-- ASCII whitespace recognised by Python's `str.strip`:
space, tab, newline, vertical tab, form feed, carriage return. -/
def isSpaceChar (c : Char) : Bool :=
  c.toNat == 32 || c.toNat == 9 || c.toNat == 10 || c.toNat == 11 ||
    c.toNat == 12 || c.toNat == 13

/-- Python `str.casefold` restricted to ASCII: lowercase every character
(on ASCII, `casefold` agrees with `Char.toLower`). -/
def pyCasefold (s : Str) : Str :=
  s.map Char.toLower

/-- Remove trailing whitespace (the right half of Python `str.strip`). -/
def trimEnd (s : Str) : Str :=
  (s.reverse.dropWhile isSpaceChar).reverse

/-- Python `str.strip`: drop leading and trailing whitespace. -/
def pyStrip (s : Str) : Str :=
  trimEnd (s.dropWhile isSpaceChar)

/-- `Claude.py` lines 60–61 (`send_zbm_emails.py` has no normalizer):
`str(text).strip().casefold()`. -/
def normalize (s : Str) : Str :=
  pyCasefold (pyStrip s)

/-- Python `str.replace("  ", " ")`: scan left to right, replacing each
non-overlapping occurrence of two consecutive spaces by one space. -/
def replaceDoubleSpace : Str → Str
  | ' ' :: ' ' :: rest => ' ' :: replaceDoubleSpace rest
  | c :: rest => c :: replaceDoubleSpace rest
  | [] => []

/-- `hierarchical_zbm_summary.py` lines 46–49 and
`create_corrected_zbm_reports.py` lines 48–51:
`str(text).strip().casefold()` followed by `.replace("  ", " ")`. -/
def normalizeFixSpacing (s : Str) : Str :=
  replaceDoubleSpace (pyCasefold (pyStrip s))

/-- A Python `dict` built by executing the assignments `d[k] = v` in list
order over an initially empty dictionary; `dictOf pairs k` is `d.get(k)`. -/
def dictOf [DecidableEq α] (pairs : List (α × β)) : α → Option β :=
  pairs.foldl (fun m kv => fun k => if k = kv.1 then some kv.2 else m k) (fun _ => none)

/-- `tuple(sorted(set(normalize(s) for s in statuses)))` for a given
normalizer: the order-canonical, deduplicated rule-lookup key
(`Claude.py` lines 65–66 and 73, and the corresponding lines of the other
script variants). -/
def keyOf (norm : Str → Str) (statuses : List Str) : List Str :=
  List.insertionSort (· ≤ ·) ((statuses.map norm).dedup)

/-- The lookup key used by `Claude.py` (its `normalize` has no space fix). -/
def pyKey (statuses : List Str) : List Str :=
  keyOf normalize statuses

/-- The unmatched sentinel of `Claude.py` line 74 and
`hierarchical_zbm_summary.py` line 75. -/
def noMatchSentinel : Str :=
  "❌ No matching rule".data

/-- `Claude.py` lines 72–74: `rules.get(key, '❌ No matching rule')`. -/
def get_final_answer (rules : List (List Str × Str)) (status_list : List Str) : Str :=
  (dictOf rules (pyKey status_list)).getD noMatchSentinel

/-- The literal status whose presence sets the pending-invoicing flag
(`Claude.py` line 80). -/
def actionPendingLiteral : Str :=
  "action pending / in process".data

/-- `Claude.py` lines 79–81: `any(normalize(s) == target for s in status_list)`. -/
def has_action_pending (status_list : List Str) : Bool :=
  status_list.any (fun s => normalize s == actionPendingLiteral)

/-- `hierarchical_zbm_summary.py` lines 62–67: the supplementary hard-coded
rules layered on top of the loaded table by `rules.update(additional_rules)`.
Keys are already in normalized, deduplicated, sorted form in the source. -/
def additional_rules : List (List Str × Str) :=
  [ (["not permitted".data], "Not Permitted".data),
    (["delivered".data, "out of stock".data, "return".data], "Delivered".data),
    (["action pending / in process".data, "dispatch pending".data, "out of stock".data],
      "Dispatch Pending".data),
    (["dispatch pending".data, "not permitted".data], "Not Permitted".data) ]

/-- `create_corrected_zbm_reports.py` lines 64–82: the supplementary rules of
the corrected-reports variant (also layered via `rules.update`). -/
def additional_rules_corrected : List (List Str × Str) :=
  [ (["action pending / in process".data, "delivered".data], "Delivered".data),
    (["action pending / in process".data, "dispatched & in transit".data],
      "Dispatched & In Transit".data),
    (["action pending / in process".data, "dispatch pending".data], "Dispatch Pending".data),
    (["action pending / in process".data, "out of stock".data], "Out of stock".data),
    (["action pending / in process".data, "return".data], "Return".data),
    (["delivered".data, "return".data], "Delivered".data),
    (["dispatch pending".data, "delivered".data], "Delivered".data),
    (["dispatch pending".data, "dispatched & in transit".data], "Dispatched & In Transit".data),
    (["dispatch pending".data, "return".data], "Return".data),
    (["dispatched & in transit".data, "return".data], "Dispatched & In Transit".data),
    (["out of stock".data, "return".data], "Out of stock".data),
    (["request raised".data, "action pending / in process".data],
      "Action pending / In Process".data),
    (["request raised".data, "delivered".data], "Delivered".data),
    (["request raised".data, "dispatch pending".data], "Dispatch Pending".data),
    (["request raised".data, "dispatched & in transit".data], "Dispatched & In Transit".data),
    (["request raised".data, "out of stock".data], "Out of stock".data),
    (["request raised".data, "return".data], "Return".data) ]

/-! ## Final Status labels used by the aggregators -/

def outOfStockFA : Str := "Out of stock".data

def onHoldFA : Str := "On hold".data

def notPermittedFA : Str := "Not permitted".data

def actionPendingFA : Str := "Action pending / In Process".data

def dispatchPendingFA : Str := "Dispatch Pending".data

def deliveredFA : Str := "Delivered".data

def dispatchedInTransitFA : Str := "Dispatched & In Transit".data

def rtoFA : Str := "RTO".data

/-! ## Data model

One tracker row after the final status and pending-invoicing flag have been
merged back onto the raw data (`Claude.py` line 85); only the fields read by
the aggregation logic are kept. -/

structure TrackerRow where
  zbmCode : Str
  zbmName : Str
  zbmEmail : Str
  abmCode : Str
  abmName : Str
  tbmEmail : Str
  tbmHq : Str
  abmHq : Option Str
  hcpId : Str
  reqId : Str
  finalAnswer : Str
  hasDPending : Bool
deriving DecidableEq

/-- The per-request data that `unique_requests_df` keeps
(`Claude.py` lines 148–153). -/
structure ResolvedRequest where
  finalAnswer : Str
  hasDPending : Bool
deriving DecidableEq

/-- `Series.unique` / `drop_duplicates`: distinct values, first occurrence
first.  `seen` accumulates the values already emitted. -/
def distinctFirstAux [DecidableEq α] (seen : List α) : List α → List α
  | [] => []
  | a :: rest =>
    if a ∈ seen then distinctFirstAux seen rest
    else a :: distinctFirstAux (a :: seen) rest

/-- Distinct values of a list in order of first occurrence. -/
def distinctFirst [DecidableEq α] (l : List α) : List α :=
  distinctFirstAux [] l

/-- `abm_data.groupby('Assigned Request Ids').agg('first')`
(`Claude.py` lines 148–153): one `ResolvedRequest` per distinct request id,
carrying the `Final Answer` and `Has D Pending` values of its first row.
(Pandas additionally sorts the group keys; key order does not affect any of
the counts proved below.) -/
def uniqueRequestsAux (seen : List Str) : List TrackerRow → List ResolvedRequest
  | [] => []
  | r :: rest =>
    if r.reqId ∈ seen then uniqueRequestsAux seen rest
    else ⟨r.finalAnswer, r.hasDPending⟩ :: uniqueRequestsAux (r.reqId :: seen) rest

/-- The per-request table of one group. -/
def uniqueRequests (rows : List TrackerRow) : List ResolvedRequest :=
  uniqueRequestsAux [] rows

instance : IsTotal (Str × Str × Str) (fun a b => a.1 ≤ b.1) :=
  ⟨fun a b => le_total a.1 b.1⟩

instance : IsTrans (Str × Str × Str) (fun a b => a.1 ≤ b.1) :=
  ⟨fun _ _ _ h₁ h₂ => le_trans h₁ h₂⟩

instance : IsTotal (Str × Str) (fun a b => a.1 ≤ b.1) :=
  ⟨fun a b => le_total a.1 b.1⟩

instance : IsTrans (Str × Str) (fun a b => a.1 ≤ b.1) :=
  ⟨fun _ _ _ h₁ h₂ => le_trans h₁ h₂⟩

/-! ## The counting predicates of `Claude.py` lines 164–198 -/

/-- A: `Final Answer ∈ {Out of stock, On hold, Not permitted}` (lines 166–168). -/
def bpredA (r : ResolvedRequest) : Bool :=
  decide (r.finalAnswer ∈ [outOfStockFA, onHoldFA, notPermittedFA])

/-- B: `Final Answer ∈ {Action pending / In Process}` and not pending-invoicing
(lines 172–175). -/
def bpredB (r : ResolvedRequest) : Bool :=
  decide (r.finalAnswer ∈ [actionPendingFA]) && !r.hasDPending

/-- D: the pending-invoicing flag is set (line 178). -/
def bpredD (r : ResolvedRequest) : Bool :=
  r.hasDPending

/-- E: `Final Answer ∈ {Dispatch Pending}` (lines 181–183). -/
def bpredE (r : ResolvedRequest) : Bool :=
  decide (r.finalAnswer ∈ [dispatchPendingFA])

/-- G: `Final Answer ∈ {Delivered}` (lines 186–188). -/
def bpredG (r : ResolvedRequest) : Bool :=
  decide (r.finalAnswer ∈ [deliveredFA])

/-- H: `Final Answer ∈ {Dispatched & In Transit}` (lines 191–193). -/
def bpredH (r : ResolvedRequest) : Bool :=
  decide (r.finalAnswer ∈ [dispatchedInTransitFA])

/-- I: `Final Answer ∈ {RTO}` (lines 196–198). -/
def bpredI (r : ResolvedRequest) : Bool :=
  decide (r.finalAnswer ∈ [rtoFA])

def countA (l : List ResolvedRequest) : Nat := l.countP bpredA

def countB (l : List ResolvedRequest) : Nat := l.countP bpredB

def countD (l : List ResolvedRequest) : Nat := l.countP bpredD

def countE (l : List ResolvedRequest) : Nat := l.countP bpredE

def countG (l : List ResolvedRequest) : Nat := l.countP bpredG

def countH (l : List ResolvedRequest) : Nat := l.countP bpredH

def countI (l : List ResolvedRequest) : Nat := l.countP bpredI

/-- F = G + H + I (`Claude.py` line 202). -/
def requestsDispatched (l : List ResolvedRequest) : Nat :=
  countG l + countH l + countI l

/-- C = D + E + F (`Claude.py` line 205). -/
def sentToHub (l : List ResolvedRequest) : Nat :=
  countD l + countE l + requestsDispatched l

/-- Requests Raised = A + B + C (`Claude.py` line 208). -/
def requestsRaised (l : List ResolvedRequest) : Nat :=
  countA l + countB l + sentToHub l

/-- `mapped_answers` of the mismatch diagnostic (`Claude.py` lines 241–242). -/
def mapped_answers : List Str :=
  [outOfStockFA, onHoldFA, notPermittedFA, actionPendingFA,
   dispatchPendingFA, deliveredFA, dispatchedInTransitFA, rtoFA]

/-- `Claude.py` lines 240–243: the Final Answer values present in the group
that are not covered by the mapped answers, as enumerated by the warning. -/
def unmappedAnswers (l : List ResolvedRequest) : List Str :=
  (distinctFirst (l.map (·.finalAnswer))).filter (fun ans => !(mapped_answers.contains ans))

/-- How many of the seven counting predicates a request satisfies. -/
def predCount (r : ResolvedRequest) : Nat :=
  (bpredA r).toNat + (bpredB r).toNat + (bpredD r).toNat + (bpredE r).toNat +
    (bpredG r).toNat + (bpredH r).toNat + (bpredI r).toNat

/-! ## Summary rows, totals and ordering -/

/-- One line of `summary_data` (`Claude.py` lines 250–270). -/
structure SummaryRow where
  areaName : Str
  abmName : Str
  uniqueTbms : Nat
  uniqueHcps : Nat
  uniqueRequests : Nat
  requestsRaised : Nat
  requestCancelledOutOfStock : Nat
  actionPendingAtHo : Nat
  sentToHub : Nat
  pendingForInvoicing : Nat
  pendingForDispatch : Nat
  requestsDispatched : Nat
  delivered : Nat
  dispatchedInTransit : Nat
  rto : Nat
  incompleteAddress : Nat
  doctorNonContactable : Nat
  doctorRefusedToAccept : Nat
  holdDelivery : Nat
deriving DecidableEq

/-- `df[['ZBM Terr Code','ZBM Name','ZBM EMAIL_ID']].drop_duplicates()
.sort_values('ZBM Terr Code')` (`Claude.py` line 98): the ZBM processing
order of the batch run. -/
def zbmsOf (rows : List TrackerRow) : List (Str × Str × Str) :=
  List.insertionSort (fun a b => a.1 ≤ b.1)
    (distinctFirst (rows.map (fun r => (r.zbmCode, r.zbmName, r.zbmEmail))))

/-- The ABM list of one ZBM: `zbm_data.groupby(['ABM Terr Code','ABM Name'])
... .sort_values('ABM Terr Code')` (`Claude.py` lines 123–129).  (Pandas
orders groups with equal territory codes by the full group key; only the
ascending-code order is used below.) -/
def abmsOf (rows : List TrackerRow) (zbmCode : Str) : List (Str × Str) :=
  List.insertionSort (fun a b => a.1 ≤ b.1)
    (distinctFirst
      ((rows.filter (fun r => r.zbmCode == zbmCode)).map (fun r => (r.abmCode, r.abmName))))

/-- `abm_data`: the rows of one ABM inside one ZBM (`Claude.py` line 142). -/
def abmRowsFor (rows : List TrackerRow) (zbmCode : Str) (abm : Str × Str) : List TrackerRow :=
  rows.filter (fun r => r.zbmCode == zbmCode && r.abmCode == abm.1 && r.abmName == abm.2)

/-- The summary line computed for one ABM (`Claude.py` lines 135–270):
unique counts, the seven predicate counters over the per-request table, the
derived funnel counters, the RTO-reason placeholders (hard-coded 0 at lines
211–214) and the area label `"{abm_code} and {abm_hq}"` with the TBM-HQ
fallback (lines 216–221). -/
def summaryRowFor (rows : List TrackerRow) (zbmCode : Str) (abm : Str × Str) : SummaryRow :=
  let g := abmRowsFor rows zbmCode abm
  let ur := uniqueRequests g
  let tbmHq := ((g.map (·.tbmHq)).head?).getD []
  let abmHq := (((g.map (·.abmHq)).head?).getD none).getD tbmHq
  { areaName := abm.1 ++ " and ".data ++ abmHq
    abmName := abm.2
    uniqueTbms := (distinctFirst (g.map (·.tbmEmail))).length
    uniqueHcps := (distinctFirst (g.map (·.hcpId))).length
    uniqueRequests := ur.length
    requestsRaised := requestsRaised ur
    requestCancelledOutOfStock := countA ur
    actionPendingAtHo := countB ur
    sentToHub := sentToHub ur
    pendingForInvoicing := countD ur
    pendingForDispatch := countE ur
    requestsDispatched := requestsDispatched ur
    delivered := countG ur
    dispatchedInTransit := countH ur
    rto := countI ur
    incompleteAddress := 0
    doctorNonContactable := 0
    doctorRefusedToAccept := 0
    holdDelivery := 0 }

/-- The data rows of one ZBM's report, one per ABM in `abmsOf` order
(`Claude.py` lines 135–273). -/
def zbmReportRows (rows : List TrackerRow) (zbmCode : Str) : List SummaryRow :=
  (abmsOf rows zbmCode).map (summaryRowFor rows zbmCode)

/-- The trailing total row (`Claude.py` lines 393–412): the label `"Total"`
in the ABM-name column and, in every numeric column, `summary_df[col].sum()`.
(`create_zbm_outlook_emails.py` lines 316–338 computes the same sums for the
e-mail table.) -/
def totalRowOf (dataRows : List SummaryRow) : SummaryRow :=
  { areaName := []
    abmName := "Total".data
    uniqueTbms := (dataRows.map (·.uniqueTbms)).sum
    uniqueHcps := (dataRows.map (·.uniqueHcps)).sum
    uniqueRequests := (dataRows.map (·.uniqueRequests)).sum
    requestsRaised := (dataRows.map (·.requestsRaised)).sum
    requestCancelledOutOfStock := (dataRows.map (·.requestCancelledOutOfStock)).sum
    actionPendingAtHo := (dataRows.map (·.actionPendingAtHo)).sum
    sentToHub := (dataRows.map (·.sentToHub)).sum
    pendingForInvoicing := (dataRows.map (·.pendingForInvoicing)).sum
    pendingForDispatch := (dataRows.map (·.pendingForDispatch)).sum
    requestsDispatched := (dataRows.map (·.requestsDispatched)).sum
    delivered := (dataRows.map (·.delivered)).sum
    dispatchedInTransit := (dataRows.map (·.dispatchedInTransit)).sum
    rto := (dataRows.map (·.rto)).sum
    incompleteAddress := (dataRows.map (·.incompleteAddress)).sum
    doctorNonContactable := (dataRows.map (·.doctorNonContactable)).sum
    doctorRefusedToAccept := (dataRows.map (·.doctorRefusedToAccept)).sum
    holdDelivery := (dataRows.map (·.holdDelivery)).sum }

/-- The full table written to the report: the data rows followed by the
total row (`Claude.py` lines 365–412). -/
def reportTable (dataRows : List SummaryRow) : List SummaryRow :=
  dataRows ++ [totalRowOf dataRows]

/-! ## Per-request resolution table (`Claude.py` lines 70–77)

`grouped` pairs each request id with the list of raw statuses of its rows;
`Final Answer` is computed from that list by `get_final_answer`. -/

/-- The resolution table: each grouped request id with its raw status list
and the looked-up Final Answer. -/
def resolveRequests (rules : List (List Str × Str)) (grouped : List (Str × List Str)) :
    List (Str × List Str × Str) :=
  grouped.map (fun g => (g.1, g.2, get_final_answer rules g.2))

/-- The control flow of `create_zbm_hierarchical_reports` around the rule
table (`Claude.py` lines 56–95): when loading or applying the rules raises,
the `except` branch prints the error and `return`s — the run produces no
resolution table and no reports (`none`); otherwise every request is
resolved. -/
def create_zbm_hierarchical_reports (rulesLoaded : Option (List (List Str × Str)))
    (grouped : List (Str × List Str)) : Option (List (Str × List Str × Str)) :=
  match rulesLoaded with
  | none => none
  | some rules => some (resolveRequests rules grouped)

/-! ## The e-mail variant's per-status resolver (`send_zbm_emails.py` lines 53–116)

The rule sheet gives a per-status mapping.  `df['Request Status']
.map(status_mapping)` followed by `.fillna(df['Request Status'])` sends every
status without a mapping entry to itself; if loading the mapping raises, the
`except` branch assigns `df['Final Status'] = df['Request Status']` (the
identity) and the run continues with a printed fallback notice, modelled as
the `Bool` component. -/
def computeFinalStatusColumn (mapping : Option (List (Str × Str))) (statuses : List Str) :
    List Str × Bool :=
  match mapping with
  | some m => (statuses.map (fun s => (dictOf m s).getD s), false)
  | none => (statuses, true)

/-! ## The corrected-reports resolver (`create_corrected_zbm_reports.py` lines 87–99) -/

/-- `Series.mode()`: the most frequent values, sorted ascending. -/
def seriesMode (l : List Str) : List Str :=
  let uniq := distinctFirst l
  let m := (uniq.map (fun v => l.count v)).foldl max 0
  List.insertionSort (· ≤ ·) (uniq.filter (fun v => l.count v == m))

def unknownFA : Str := "Unknown".data

/-- `compute_final_answer(request_id)` as a function of the request's raw
status column: build the normalized key from the distinct raw statuses; if
the key has a rule use it, otherwise fall back to the most common raw status
(`mode().iloc[0]`), or `'Unknown'` for an empty group. -/
def compute_final_answer (rules : List (List Str × Str)) (rowStatuses : List Str) : Str :=
  match rowStatuses with
  | [] => unknownFA
  | _ =>
    let key := List.insertionSort (· ≤ ·)
      (((distinctFirst rowStatuses).map normalizeFixSpacing).dedup)
    match dictOf rules key with
    | some v => v
    | none =>
      match seriesMode rowStatuses with
      | m :: _ => m
      | [] => unknownFA

/-! ## Concrete inputs used by witnesses and counterexamples -/

/-- A one-request group: Final Answer `Delivered`, no pending-invoicing flag. -/
def demoRowsC1 : List TrackerRow :=
  [{ zbmCode := "ZN1".data, zbmName := "Z".data, zbmEmail := "z@x".data,
     abmCode := "A1".data, abmName := "A".data, tbmEmail := "t@x".data,
     tbmHq := "HQ".data, abmHq := none, hcpId := "H1".data, reqId := "R1".data,
     finalAnswer := deliveredFA, hasDPending := false }]

/-- A one-request group whose request has Final Answer `Delivered` together
with the pending-invoicing flag (reachable e.g. from raw statuses
`action pending / in process` + `delivered` under the rule
`('action pending / in process', 'delivered') -> 'Delivered'`). -/
def cexRowsC1 : List TrackerRow :=
  [{ zbmCode := "ZN1".data, zbmName := "Z".data, zbmEmail := "z@x".data,
     abmCode := "A1".data, abmName := "A".data, tbmEmail := "t@x".data,
     tbmHq := "HQ".data, abmHq := none, hcpId := "H1".data, reqId := "R1".data,
     finalAnswer := deliveredFA, hasDPending := true }]

/-- Raw status column of a request with no matching rule; `RTO` is its most
common raw status. -/
def cexStatusesC6 : List Str :=
  ["RTO".data, "RTO".data, "Dispatch Pending".data]

/-- A loaded rule table that binds the key `('not permitted',)` before the
supplementary override layer binds it again. -/
def demoLoadedRules : List (List Str × Str) :=
  [(["not permitted".data], "Out of stock".data)]

/-! ## Helper lemmas on characters and normalization -/

theorem toNat_ofNat_lt (n : Nat) (h : n < 55296) : (Char.ofNat n).toNat = n := by
  unfold Char.ofNat
  rw [dif_pos (Or.inl h)]
  rfl

theorem toLower_toNat (c : Char) :
    (Char.toLower c).toNat = if c.toNat ≥ 65 ∧ c.toNat ≤ 90 then c.toNat + 32 else c.toNat := by
  unfold Char.toLower
  by_cases h : c.toNat ≥ 65 ∧ c.toNat ≤ 90
  · rw [if_pos h, if_pos h, toNat_ofNat_lt]
    omega
  · rw [if_neg h, if_neg h]

theorem toLower_eq_self (c : Char) (h : ¬(c.toNat ≥ 65 ∧ c.toNat ≤ 90)) :
    Char.toLower c = c := by
  unfold Char.toLower
  rw [if_neg h]

theorem toLower_not_upper (c : Char) :
    ¬((Char.toLower c).toNat ≥ 65 ∧ (Char.toLower c).toNat ≤ 90) := by
  rw [toLower_toNat]
  by_cases h : c.toNat ≥ 65 ∧ c.toNat ≤ 90
  · rw [if_pos h]
    omega
  · rw [if_neg h]
    exact h

theorem toLower_idem (c : Char) : Char.toLower (Char.toLower c) = Char.toLower c :=
  toLower_eq_self _ (toLower_not_upper c)

theorem isSpaceChar_toLower (c : Char) : isSpaceChar (Char.toLower c) = isSpaceChar c := by
  unfold isSpaceChar
  rw [toLower_toNat]
  by_cases h : c.toNat ≥ 65 ∧ c.toNat ≤ 90
  · rw [if_pos h]
    have h1 : ∀ m : Nat, 34 ≤ m →
        (m == 32 || m == 9 || m == 10 || m == 11 || m == 12 || m == 13) = false := by
      intro m hm
      simp only [Bool.or_eq_false_iff, beq_eq_false_iff_ne, ne_eq]
      omega
    rw [h1 _ (by omega), h1 _ (by omega)]
  · rw [if_neg h]

theorem dropWhile_eq_self_of_head (p : Char → Bool) (a : Char) (l : Str) (h : p a = false) :
    (a :: l).dropWhile p = a :: l := by
  rw [List.dropWhile_cons, h]
  rfl

theorem head_not_of_dropWhile_eq_self (p : Char → Bool) (a : Char) (l : Str)
    (h : (a :: l).dropWhile p = a :: l) : p a = false := by
  by_cases hp : p a = true
  · exfalso
    rw [List.dropWhile_cons, hp, if_pos rfl] at h
    have hlen := (List.dropWhile_suffix (l := l) p).length_le
    have h2 := congrArg List.length h
    simp only [List.length_cons] at h2
    omega
  · exact Bool.eq_false_iff.mpr hp

theorem trimEnd_prefix (l : Str) : ∃ u, trimEnd l ++ u = l := by
  obtain ⟨u, hu⟩ := List.dropWhile_suffix (l := l.reverse) isSpaceChar
  refine ⟨u.reverse, ?_⟩
  unfold trimEnd
  have := congrArg List.reverse hu
  rw [List.reverse_append, List.reverse_reverse] at this
  exact this

theorem trimEnd_dropWhile (l : Str) (h : l.dropWhile isSpaceChar = l) :
    (trimEnd l).dropWhile isSpaceChar = trimEnd l := by
  obtain ⟨u, hu⟩ := trimEnd_prefix l
  cases ht : trimEnd l with
  | nil => rfl
  | cons a s =>
    apply dropWhile_eq_self_of_head
    rw [ht] at hu
    have hl : l = a :: (s ++ u) := by rw [← hu]; rfl
    apply head_not_of_dropWhile_eq_self isSpaceChar a (s ++ u)
    rw [← hl]
    exact h

theorem trimEnd_idem (l : Str) : trimEnd (trimEnd l) = trimEnd l := by
  unfold trimEnd
  rw [List.reverse_reverse, List.dropWhile_idempotent]

theorem pyStrip_idem (s : Str) : pyStrip (pyStrip s) = pyStrip s := by
  unfold pyStrip
  rw [trimEnd_dropWhile _ (List.dropWhile_idempotent ..), trimEnd_idem]

theorem isSpaceChar_comp_toLower : (isSpaceChar ∘ Char.toLower) = isSpaceChar := by
  funext c
  exact isSpaceChar_toLower c

theorem dropWhile_isSpace_map_toLower (l : Str) :
    (l.map Char.toLower).dropWhile isSpaceChar =
      (l.dropWhile isSpaceChar).map Char.toLower := by
  rw [List.dropWhile_map, isSpaceChar_comp_toLower]

theorem trimEnd_map_toLower (l : Str) :
    trimEnd (l.map Char.toLower) = (trimEnd l).map Char.toLower := by
  unfold trimEnd
  rw [← List.map_reverse, dropWhile_isSpace_map_toLower, List.map_reverse]

theorem pyStrip_map_toLower (l : Str) :
    pyStrip (l.map Char.toLower) = (pyStrip l).map Char.toLower := by
  unfold pyStrip
  rw [dropWhile_isSpace_map_toLower, trimEnd_map_toLower]

/-! ## Helper lemmas on keys, dictionaries and counting -/

theorem keyOf_eq_of_mem_iff (norm : Str → Str) (l₁ l₂ : List Str)
    (h : ∀ a, a ∈ l₁.map norm ↔ a ∈ l₂.map norm) : keyOf norm l₁ = keyOf norm l₂ := by
  unfold keyOf
  apply List.eq_of_perm_of_sorted ?_ (List.sorted_insertionSort _ _)
    (List.sorted_insertionSort _ _)
  refine (List.perm_insertionSort _ _).trans (List.Perm.trans ?_
    (List.perm_insertionSort _ _).symm)
  refine (List.perm_ext_iff_of_nodup (List.nodup_dedup _) (List.nodup_dedup _)).mpr ?_
  intro a
  rw [List.mem_dedup, List.mem_dedup]
  exact h a

theorem dictOf_skip [DecidableEq α] (m : α → Option β) (post : List (α × β)) (k : α)
    (h : ∀ kv ∈ post, kv.1 ≠ k) :
    post.foldl (fun m kv => fun k' => if k' = kv.1 then some kv.2 else m k') m k = m k := by
  induction post generalizing m with
  | nil => rfl
  | cons kv rest ih =>
    rw [List.foldl_cons, ih _ (fun x hx => h x (List.mem_cons_of_mem _ hx))]
    exact if_neg (fun hk => h kv (List.mem_cons_self _ _) hk.symm)

theorem if_bool_toNat (b : Bool) : (if b then (1 : Nat) else 0) = b.toNat := by
  cases b <;> rfl

theorem sum_countP_of_predCount_one (l : List ResolvedRequest)
    (h : ∀ r ∈ l, predCount r = 1) :
    countA l + countB l + countD l + countE l + countG l + countH l + countI l = l.length := by
  induction l with
  | nil => rfl
  | cons r rest ih =>
    have hr := h r (List.mem_cons_self r rest)
    have ht := ih (fun x hx => h x (List.mem_cons_of_mem _ hx))
    unfold countA countB countD countE countG countH countI at ht ⊢
    rw [List.countP_cons, List.countP_cons, List.countP_cons, List.countP_cons,
      List.countP_cons, List.countP_cons, List.countP_cons, if_bool_toNat, if_bool_toNat,
      if_bool_toNat, if_bool_toNat, if_bool_toNat, if_bool_toNat, if_bool_toNat]
    unfold predCount at hr
    simp only [List.length_cons]
    omega

theorem uniqueRequestsAux_length (l : List TrackerRow) (seen : List Str) :
    (uniqueRequestsAux seen l).length = (distinctFirstAux seen (l.map (·.reqId))).length := by
  induction l generalizing seen with
  | nil => rfl
  | cons r rest ih =>
    simp only [List.map_cons]
    unfold uniqueRequestsAux distinctFirstAux
    by_cases h : r.reqId ∈ seen
    · rw [if_pos h, if_pos h]
      exact ih seen
    · rw [if_neg h, if_neg h]
      simp only [List.length_cons]
      rw [ih (r.reqId :: seen)]

theorem mem_distinctFirstAux [DecidableEq α] (a : α) (l : List α) (seen : List α) :
    a ∈ distinctFirstAux seen l ↔ a ∈ l ∧ a ∉ seen := by
  induction l generalizing seen with
  | nil => simp [distinctFirstAux]
  | cons b rest ih =>
    unfold distinctFirstAux
    by_cases h : b ∈ seen
    · rw [if_pos h, ih]
      constructor
      · exact fun hx => ⟨List.mem_cons_of_mem _ hx.1, hx.2⟩
      · rintro ⟨hm, hs⟩
        rcases List.mem_cons.mp hm with rfl | hm
        · exact absurd h hs
        · exact ⟨hm, hs⟩
    · rw [if_neg h]
      simp only [List.mem_cons, ih]
      constructor
      · rintro (rfl | ⟨hm, hs⟩)
        · exact ⟨Or.inl rfl, h⟩
        · exact ⟨Or.inr hm, fun hx => hs (Or.inr hx)⟩
      · rintro ⟨rfl | hm, hs⟩
        · exact Or.inl rfl
        · by_cases hab : a = b
          · exact Or.inl hab
          · exact Or.inr ⟨hm, fun hx => by
              rcases hx with h1 | h1
              · exact hab h1
              · exact hs h1⟩

theorem mem_distinctFirst [DecidableEq α] (a : α) (l : List α) :
    a ∈ distinctFirst l ↔ a ∈ l := by
  unfold distinctFirst
  rw [mem_distinctFirstAux]
  simp

/-! ## Claim theorems -/

/-- C1 (amended).  For every ABM group in which every distinct request
satisfies exactly one of the counting predicates A, B, D, E, G, H, I, the
computed `RequestsRaised` equals the number of distinct request identifiers
in the group; and, unconditionally, the mismatch diagnostic enumerates
exactly the Final Status values present among the group's resolved requests
that are not among the eight mapped answers. -/
theorem requests_raised_counts_distinct (rows : List TrackerRow) :
    ((∀ r ∈ uniqueRequests rows, predCount r = 1) →
      requestsRaised (uniqueRequests rows) = (distinctFirst (rows.map (·.reqId))).length) ∧
    (∀ fa, fa ∈ unmappedAnswers (uniqueRequests rows) ↔
      fa ∈ (uniqueRequests rows).map (·.finalAnswer) ∧ fa ∉ mapped_answers) := by
  constructor
  · intro h
    have hsum := sum_countP_of_predCount_one _ h
    have hlen := uniqueRequestsAux_length rows []
    unfold uniqueRequests distinctFirst at *
    unfold requestsRaised sentToHub requestsDispatched
    omega
  · intro fa
    unfold unmappedAnswers
    rw [List.mem_filter, mem_distinctFirst]
    simp only [Bool.not_eq_true', ← Bool.not_eq_true, List.elem_iff]

/-- Witness for C1 at a concrete one-request group. -/
theorem requests_raised_counts_distinct_witness :
    requestsRaised (uniqueRequests demoRowsC1) =
      (distinctFirst (demoRowsC1.map (·.reqId))).length :=
  (requests_raised_counts_distinct demoRowsC1).1 (by decide)

/-- C1 counterexample.  In the group `cexRowsC1` the only request has Final
Status `Delivered` — covered by predicate G and by the mapped-answer list —
and the pending-invoicing flag, so it is counted by both D and G:
`RequestsRaised` is 2 while the group has a single distinct request id. -/
theorem requests_raised_counts_distinct_counterexample :
    (∀ r ∈ uniqueRequests cexRowsC1, r.finalAnswer ∈ mapped_answers) ∧
    (∀ r ∈ uniqueRequests cexRowsC1,
      (bpredA r || bpredB r || bpredD r || bpredE r || bpredG r || bpredH r || bpredI r) = true) ∧
    requestsRaised (uniqueRequests cexRowsC1) ≠
      (distinctFirst (cexRowsC1.map (·.reqId))).length := by
  decide

/-- C2.  The three funnel identities hold exactly over the computed
counters, both for the raw counter functions and for every assembled
summary line: F = G + H + I, C = D + E + F, RequestsRaised = A + B + C. -/
theorem funnel_identities (l : List ResolvedRequest) (rows : List TrackerRow)
    (z : Str) (a : Str × Str) :
    requestsDispatched l = countG l + countH l + countI l ∧
    sentToHub l = countD l + countE l + requestsDispatched l ∧
    requestsRaised l = countA l + countB l + sentToHub l ∧
    (summaryRowFor rows z a).requestsDispatched =
      (summaryRowFor rows z a).delivered + (summaryRowFor rows z a).dispatchedInTransit +
        (summaryRowFor rows z a).rto ∧
    (summaryRowFor rows z a).sentToHub =
      (summaryRowFor rows z a).pendingForInvoicing +
        (summaryRowFor rows z a).pendingForDispatch +
        (summaryRowFor rows z a).requestsDispatched ∧
    (summaryRowFor rows z a).requestsRaised =
      (summaryRowFor rows z a).requestCancelledOutOfStock +
        (summaryRowFor rows z a).actionPendingAtHo + (summaryRowFor rows z a).sentToHub :=
  ⟨rfl, rfl, rfl, rfl, rfl, rfl⟩

/-- C3 counterexample.  The space-fixing normalizer maps `"a   b"` (three
interior spaces) to `"a  b"` instead of collapsing the run to one space, and
applying it twice gives a different result, so it is not idempotent; the
plain `strip+casefold` normalizer leaves `"a  b"` unchanged, so it does not
collapse repeated interior spaces at all. -/
theorem normalize_collapse_counterexample :
    normalizeFixSpacing "a   b".data = "a  b".data ∧
    normalizeFixSpacing (normalizeFixSpacing "a   b".data) ≠
      normalizeFixSpacing "a   b".data ∧
    normalize "a  b".data = "a  b".data := by
  decide

/-- C3 (amended).  The `strip+casefold` normalizer of `Claude.py` is
idempotent (it strips leading/trailing whitespace and folds case, leaving
interior spacing unchanged). -/
theorem normalize_idem (s : Str) : normalize (normalize s) = normalize s := by
  unfold normalize pyCasefold
  rw [pyStrip_map_toLower, pyStrip_idem, List.map_map]
  exact List.map_congr_left (fun c _ => toLower_idem c)

/-- C4.  Rule lookup is order- and multiplicity-independent: two raw status
lists whose normalized images have the same members produce the same
normalized-deduplicated-sorted key and hence the same Final Status. -/
theorem rule_lookup_order_independent (rules : List (List Str × Str)) (l₁ l₂ : List Str)
    (h₁ : ∀ s ∈ l₁, normalize s ∈ l₂.map normalize)
    (h₂ : ∀ s ∈ l₂, normalize s ∈ l₁.map normalize) :
    get_final_answer rules l₁ = get_final_answer rules l₂ := by
  unfold get_final_answer pyKey
  rw [keyOf_eq_of_mem_iff normalize l₁ l₂ ?_]
  intro a
  constructor
  · intro ha
    obtain ⟨s, hs, rfl⟩ := List.mem_map.mp ha
    exact h₁ s hs
  · intro ha
    obtain ⟨s, hs, rfl⟩ := List.mem_map.mp ha
    exact h₂ s hs

/-- Witness for C4: the key of `[X, Y]` matches `[Y, Y, X]` (with different
raw spacing/case) and resolves to the same rule value. -/
theorem rule_lookup_order_independent_witness :
    get_final_answer [(["x".data, "y".data], "V".data)] ["X".data, " y".data] =
      get_final_answer [(["x".data, "y".data], "V".data)] ["Y ".data, "y".data, "x".data] :=
  rule_lookup_order_independent _ _ _ (by decide) (by decide)

/-- C5.  Python-dictionary rule-table construction is last-write-wins: after
executing a list of key assignments, a key whose final binding is `(k, v)`
(no later assignment rebinds `k`) looks up to `v`, whatever earlier
assignments — loaded rules or otherwise — bound it to. -/
theorem rule_table_last_write_wins (pre post : List (List Str × Str)) (k : List Str) (v : Str)
    (h : ∀ kv ∈ post, kv.1 ≠ k) :
    dictOf (pre ++ (k, v) :: post) k = some v := by
  unfold dictOf
  rw [List.foldl_append, List.foldl_cons, dictOf_skip _ _ _ h]
  exact if_pos rfl

/-- Witness for C5: a loaded rule binds the key `('not permitted',)`, the
supplementary override layer of `hierarchical_zbm_summary.py` binds it
again, and the override value wins. -/
theorem rule_table_last_write_wins_witness :
    dictOf (demoLoadedRules ++ additional_rules) ["not permitted".data] =
      some "Not Permitted".data :=
  rule_table_last_write_wins demoLoadedRules (additional_rules.tail)
    ["not permitted".data] "Not Permitted".data (by decide)

/-- C6 (amended).  The strict resolver of `Claude.py` assigns the
distinguished sentinel to every request whose key is absent from the rule
table, and the resolution table pairs the request identifier with its raw
status list and that sentinel, so the unmatched request is reportable as a
diagnostic.  (The corrected-reports variant instead guesses — see the
counterexample.) -/
theorem strict_resolver_unmatched (rules : List (List Str × Str))
    (grouped : List (Str × List Str)) (g : Str × List Str) (hg : g ∈ grouped)
    (h : dictOf rules (pyKey g.2) = none) :
    get_final_answer rules g.2 = noMatchSentinel ∧
    (g.1, g.2, noMatchSentinel) ∈ resolveRequests rules grouped := by
  have hv : get_final_answer rules g.2 = noMatchSentinel := by
    unfold get_final_answer
    rw [h]
    rfl
  refine ⟨hv, ?_⟩
  unfold resolveRequests
  exact List.mem_map.mpr ⟨g, hg, by rw [hv]⟩

/-- Witness for C6 at a concrete unmatched request. -/
theorem strict_resolver_unmatched_witness :
    get_final_answer additional_rules ["Dispatch Pending".data, "RTO".data] =
      noMatchSentinel ∧
    ("REQ1".data, ["Dispatch Pending".data, "RTO".data], noMatchSentinel) ∈
      resolveRequests additional_rules
        [("REQ1".data, ["Dispatch Pending".data, "RTO".data])] :=
  strict_resolver_unmatched additional_rules _
    ("REQ1".data, ["Dispatch Pending".data, "RTO".data]) (by decide) (by decide)

/-- C6 counterexample.  The corrected-reports resolver
(`create_corrected_zbm_reports.py` lines 87–99) does not assign the sentinel
to an unmatched request: for raw statuses `[RTO, RTO, Dispatch Pending]`,
whose key has no rule, it silently falls back to the most common raw status
`RTO`. -/
theorem resolver_mode_fallback_counterexample :
    dictOf additional_rules_corrected
        (List.insertionSort (· ≤ ·)
          (((distinctFirst cexStatusesC6).map normalizeFixSpacing).dedup)) = none ∧
    compute_final_answer additional_rules_corrected cexStatusesC6 = "RTO".data ∧
    "RTO".data ≠ noMatchSentinel := by
  decide

/-- C7.  The pending-invoicing flag is true iff the normalized status set
contains the literal `action pending / in process`, and a flagged request is
counted by predicate D (Pending for Invoicing) and excluded from predicate B
(Action Pending at HO) whatever its Final Status. -/
theorem pending_invoicing_flag (status_list : List Str) (r : ResolvedRequest)
    (hr : r.hasDPending = true) :
    (has_action_pending status_list = true ↔
      actionPendingLiteral ∈ status_list.map normalize) ∧
    bpredD r = true ∧ bpredB r = false := by
  refine ⟨?_, hr, ?_⟩
  · unfold has_action_pending
    rw [List.any_eq_true]
    constructor
    · rintro ⟨s, hs, hb⟩
      exact List.mem_map.mpr ⟨s, hs, (beq_iff_eq.mp hb)⟩
    · intro hm
      obtain ⟨s, hs, hb⟩ := List.mem_map.mp hm
      exact ⟨s, hs, beq_iff_eq.mpr hb⟩
  · unfold bpredB
    rw [hr]
    exact Bool.and_false _

/-- Witness for C7: a request whose raw statuses contain
`Action Pending / In Process` (odd spacing/case) next to `Delivered`. -/
theorem pending_invoicing_flag_witness :
    (has_action_pending ["Action Pending / In Process ".data, "Delivered".data] = true ↔
      actionPendingLiteral ∈
        (["Action Pending / In Process ".data, "Delivered".data].map normalize)) ∧
    bpredD ⟨deliveredFA, true⟩ = true ∧ bpredB ⟨deliveredFA, true⟩ = false :=
  pending_invoicing_flag _ ⟨deliveredFA, true⟩ rfl

/-- C8.  The trailing total row of a ZBM report table carries, in every
numeric column, the column-wise sum of that counter over the data rows. -/
theorem total_row_is_columnwise_sum (dataRows : List SummaryRow) :
    (reportTable dataRows).getLast? = some (totalRowOf dataRows) ∧
    (totalRowOf dataRows).uniqueTbms = (dataRows.map (·.uniqueTbms)).sum ∧
    (totalRowOf dataRows).uniqueHcps = (dataRows.map (·.uniqueHcps)).sum ∧
    (totalRowOf dataRows).uniqueRequests = (dataRows.map (·.uniqueRequests)).sum ∧
    (totalRowOf dataRows).requestsRaised = (dataRows.map (·.requestsRaised)).sum ∧
    (totalRowOf dataRows).requestCancelledOutOfStock =
      (dataRows.map (·.requestCancelledOutOfStock)).sum ∧
    (totalRowOf dataRows).actionPendingAtHo = (dataRows.map (·.actionPendingAtHo)).sum ∧
    (totalRowOf dataRows).sentToHub = (dataRows.map (·.sentToHub)).sum ∧
    (totalRowOf dataRows).pendingForInvoicing =
      (dataRows.map (·.pendingForInvoicing)).sum ∧
    (totalRowOf dataRows).pendingForDispatch = (dataRows.map (·.pendingForDispatch)).sum ∧
    (totalRowOf dataRows).requestsDispatched = (dataRows.map (·.requestsDispatched)).sum ∧
    (totalRowOf dataRows).delivered = (dataRows.map (·.delivered)).sum ∧
    (totalRowOf dataRows).dispatchedInTransit =
      (dataRows.map (·.dispatchedInTransit)).sum ∧
    (totalRowOf dataRows).rto = (dataRows.map (·.rto)).sum ∧
    (totalRowOf dataRows).incompleteAddress = (dataRows.map (·.incompleteAddress)).sum ∧
    (totalRowOf dataRows).doctorNonContactable =
      (dataRows.map (·.doctorNonContactable)).sum ∧
    (totalRowOf dataRows).doctorRefusedToAccept =
      (dataRows.map (·.doctorRefusedToAccept)).sum ∧
    (totalRowOf dataRows).holdDelivery = (dataRows.map (·.holdDelivery)).sum :=
  ⟨List.getLast?_concat _, rfl, rfl, rfl, rfl, rfl, rfl, rfl, rfl, rfl, rfl, rfl, rfl,
    rfl, rfl, rfl, rfl, rfl⟩

/-- C9 (amended).  On rule-load failure the e-mail variant resolves every
status to itself (identity mapping) and raises the operator-visible fallback
flag; with a loaded mapping, a status absent from it also falls back to
itself.  The hierarchical-reports variant instead aborts its run on
rule-load failure, producing no resolution table. -/
theorem rule_load_identity_fallback (statuses : List Str) (m : List (Str × Str)) (s : Str)
    (grouped : List (Str × List Str)) (h : dictOf m s = none) :
    computeFinalStatusColumn none statuses = (statuses, true) ∧
    (computeFinalStatusColumn (some m) [s]).1 = [s] ∧
    create_zbm_hierarchical_reports none grouped = none := by
  refine ⟨rfl, ?_, rfl⟩
  unfold computeFinalStatusColumn
  simp [h]

/-- Witness for C9 at a concrete mapping and status. -/
theorem rule_load_identity_fallback_witness :
    computeFinalStatusColumn none ["Delivered".data, "RTO".data] =
      (["Delivered".data, "RTO".data], true) ∧
    (computeFinalStatusColumn (some [("Delivered".data, "Delivered".data)])
      ["Weird".data]).1 = ["Weird".data] ∧
    create_zbm_hierarchical_reports none [("REQ1".data, ["Delivered".data])] = none :=
  rule_load_identity_fallback ["Delivered".data, "RTO".data]
    [("Delivered".data, "Delivered".data)] "Weird".data
    [("REQ1".data, ["Delivered".data])] (by decide)

/-- C9 counterexample.  On rule-load failure the hierarchical-reports run
(`Claude.py` lines 93–95) aborts — it produces no resolution table for a
non-empty request set — rather than continuing with the identity mapping as
the e-mail variant does. -/
theorem rule_load_abort_counterexample :
    create_zbm_hierarchical_reports none [("REQ1".data, ["Delivered".data])] = none ∧
    (computeFinalStatusColumn none ["Delivered".data]).1 = ["Delivered".data] :=
  ⟨rfl, rfl⟩

/-- C10.  ZBMs are processed in ascending territory-code order, ABMs inside
each ZBM report in ascending territory-code order, and the report's data
rows follow exactly that ABM order. -/
theorem processing_order (rows : List TrackerRow) :
    List.Sorted (fun a b => a.1 ≤ b.1) (zbmsOf rows) ∧
    (∀ z, List.Sorted (fun a b => a.1 ≤ b.1) (abmsOf rows z)) ∧
    (∀ z, (zbmReportRows rows z).map (·.abmName) = (abmsOf rows z).map (·.2)) := by
  refine ⟨List.sorted_insertionSort _ _, fun z => List.sorted_insertionSort _ _, fun z => ?_⟩
  unfold zbmReportRows
  rw [List.map_map]
  rfl

end ZbmAuto
